import Mathlib

/-!
Shallow embedding of `opentelemetry/instrumentation/asgi/__init__.py`
(the `OpenTelemetryMiddleware` ASGI middleware) and proofs about it.

Modelling conventions:
* ASGI byte strings are modelled as `String` (decoding is the identity on
  the modelled values; where the *amount* of decoding work matters it is
  counted explicitly).
* Python `None`-able values are `Option`; Python truthiness of a list is
  non-emptiness, of an `Option Int` it is `some n` with `n ≠ 0`.
* Wall-clock readings of `timeit.default_timer` are modelled as `ℚ`.
* External collaborators that are not part of this repository
  (`urllib.parse.unquote`, `http_status_to_status_code`,
  `SanitizeValue.sanitize_header_values`, header-name normalisation) are
  either taken as function parameters or modelled from the spec, as noted
  on each definition.
-/

namespace Asgi

/-- The numeric value of an ASCII decimal digit, `none` otherwise. -/
def digitVal (c : Char) : Option Nat :=
  if '0' ≤ c ∧ c ≤ '9' then some (c.toNat - 48) else none

/-- Parses a non-empty all-digit character list as a natural number. -/
def parseNatDigits : List Char → Option Nat
  | [] => none
  | cs => go cs 0
where
  go : List Char → Nat → Option Nat
    | [], acc => some acc
    | c :: rest, acc =>
      match digitVal c with
      | some d => go rest (acc * 10 + d)
      | none => none

/-- Python `int(s)` on a string: an optional sign followed by decimal
digits, `ValueError` (here `none`) otherwise.  Models the conversions at
`int(content_length[0])` and `int(request_size[0])` in the source. -/
def pyIntOfString (s : String) : Option Int :=
  match s.data with
  | '-' :: rest => (parseNatDigits rest).map (fun n => -(n : Int))
  | '+' :: rest => (parseNatDigits rest).map (fun n => (n : Int))
  | l => (parseNatDigits l).map (fun n => (n : Int))

/-- ASCII lower-casing of one character, modelling Python `str.lower()` on
the ASCII header names this middleware handles. -/
def charLower (c : Char) : Char :=
  if 'A' ≤ c ∧ c ≤ 'Z' then Char.ofNat (c.toNat + 32) else c

/-- Python `str.lower()` on ASCII strings. -/
def pyLower (s : String) : String :=
  String.mk (s.data.map charLower)

/-- Whether the second character list begins with the first; used to model
an anchored `p.*`-style header-name regex on concrete inputs. -/
def matchesLead : List Char → List Char → Bool
  | [], _ => true
  | _ :: _, [] => false
  | a :: as, b :: bs => a == b && matchesLead as bs

/-- The matcher of the anchored regex `p ++ ".*"` (as used by the
header-capture configuration patterns). -/
def patternLead (p : String) : String → Bool :=
  fun s => matchesLead p.data s.data

/-- Python `round` on a rational: round half to even (banker's rounding),
as used in `round((default_timer() - start) * 1000)`. -/
def pyRound (q : ℚ) : ℤ :=
  if q - (⌊q⌋ : ℚ) < 1/2 then ⌊q⌋
  else if 1/2 < q - (⌊q⌋ : ℚ) then ⌊q⌋ + 1
  else if ⌊q⌋ % 2 = 0 then ⌊q⌋ else ⌊q⌋ + 1

/-- An outgoing ASGI message as seen by the `send` wrapper.  Fields mirror
the keys read by the source: `message["type"]`, `message["status"]`,
`message.get("trailers", False)`, `message.get("more_body", False)`,
`message.get("more_trailers", False)` and `message.get("headers")`. -/
structure Message where
  type : String
  status : Int := 0
  trailers : Bool := false
  more_body : Bool := false
  more_trailers : Bool := false
  headers : List (String × String) := []
deriving Repr, DecidableEq

/-- The ASGI scope: the fields of the scope dictionary read by the
middleware.  `server` is `(host, port)` as in the ASGI spec. -/
structure Scope where
  type : String
  scheme : Option String := none
  server : Option (String × Nat) := none
  root_path : Option String := none
  path : Option String := none
  query_string : Option String := none
  headers : List (String × String) := []
deriving Repr, DecidableEq

/-- `ASGIGetter.get`: all values whose (lower-cased) header name equals the
lower-cased key, in document order.  The source returns `None` when there
is no match; every caller only tests truthiness or indexes `[0]`, so the
empty list models the `None` result. -/
def asgiGet (headers : List (String × String)) (key : String) : List String :=
  let k := pyLower key
  headers.filterMap (fun p => if pyLower p.1 == k then some p.2 else none)

/-- `get_host_port_url_tuple(scope)`: returns `(host, port, full_url)`.
Python compares `str(port) != "80"`; for an `int` port that is exactly
`port ≠ 80`, which is how the comparison is embedded here. -/
def get_host_port_url_tuple (scope : Scope) : String × Nat × String :=
  let server := scope.server.getD ("0.0.0.0", 80)
  let port := server.2
  let server_host := server.1 ++ (if port ≠ 80 then ":" ++ toString port else "")
  let full_path := scope.root_path.getD "" ++ scope.path.getD ""
  let http_url := scope.scheme.getD "http" ++ "://" ++ server_host ++ full_path
  (server_host, port, http_url)

/-- The full-URL derivation of `collect_request_attributes` (lines 299-304):
the `get_host_port_url_tuple` URL with the decoded query string appended
when both are truthy.  `unquote` abstracts `urllib.parse.unquote`, an
external collaborator. -/
def deriveFullUrl (unquote : String → String) (scope : Scope) : String :=
  let http_url := (get_host_port_url_tuple scope).2.2
  match scope.query_string with
  | some qs => if qs ≠ "" ∧ http_url ≠ "" then http_url ++ "?" ++ unquote qs else http_url
  | none => http_url

/-- Modelled from the spec: `urllib.parse.unquote` percent-decoding is an
external collaborator; for the concrete inputs appearing in the claims it
decodes `%XY` hex escapes and leaves other characters unchanged. -/
def pyUnquote (s : String) : String :=
  let rec go : List Char → List Char
    | [] => []
    | '%' :: a :: b :: rest =>
      match (String.mk ['0', 'x', a, b]).toNat? with
      | some n => Char.ofNat n :: go rest
      | none => '%' :: go (a :: b :: rest)
    | c :: rest => c :: go rest
  String.mk (go s.data)

/-- Stated from the claim's words (for comparison with the derivation
embedded from the source): `scheme://host[:port]` followed by root_path
plus path, with the `:port` suffix omitted from the host exactly when the
port is 80, and the percent-decoded query string appended after `?` only
when both the URL and the query string are non-empty. -/
def claimFullUrl (unquote : String → String) (scope : Scope) : String :=
  let server := scope.server.getD ("0.0.0.0", 80)
  let hostport :=
    if server.2 = 80 then server.1 else server.1 ++ ":" ++ toString server.2
  let base := scope.scheme.getD "http" ++ "://" ++ hostport
      ++ scope.root_path.getD "" ++ scope.path.getD ""
  match scope.query_string with
  | some qs => if qs ≠ "" ∧ base ≠ "" then base ++ "?" ++ unquote qs else base
  | none => base

/-- A Python value passed as the `status_code` argument of
`set_status_code`: the call sites pass `message["status"]` (an `int` per
the ASGI spec) or a literal, but the argument is untyped, so integers and
strings are both modelled.  Python `int()` raises exactly `ValueError` on
these. -/
inductive PyStatus where
  | int (n : Int)
  | str (s : String)
deriving Repr, DecidableEq

/-- Python `int(status_code)` for the modelled argument domain: identity on
ints, decimal parse on strings, `ValueError` otherwise. -/
def pyIntOf : PyStatus → Except String Int
  | .int n => .ok n
  | .str s =>
    match pyIntOfString s with
    | some n => .ok n
    | none => .error "ValueError"

/-- Python `repr(status_code)` for the modelled argument domain. -/
def pyRepr : PyStatus → String
  | .int n => toString n
  | .str s => "'" ++ s ++ "'"

/-- An OpenTelemetry trace status code (`opentelemetry.trace.status`). -/
inductive OtelStatus where
  | unset
  | ok
  | error
deriving Repr, DecidableEq

/-- The span state touched by `set_status_code`: recording flag, the
attribute list, and the span status (code, description). -/
structure SpanRec where
  recording : Bool
  attrs : List (String × Int) := []
  status : Option (OtelStatus × String) := none
deriving Repr, DecidableEq

/-- `set_status_code(span, status_code)` (lines 378-395).  `mapping`
abstracts the external collaborator `http_status_to_status_code(·,
server_span=True)`.  The result is `Except` so that an uncaught Python
exception would show up as `.error`; the `try` block catches exactly
`ValueError`, which is every error `int()` can raise on this domain, so
the function always returns `.ok`. -/
def set_status_code (mapping : Int → OtelStatus) (span : SpanRec)
    (status_code : PyStatus) : Except String SpanRec :=
  if !span.recording then .ok span
  else
    match pyIntOf status_code with
    | .error _ =>
      .ok { span with
              status := some (.error, "Non-integer HTTP status: " ++ pyRepr status_code) }
    | .ok n =>
      .ok { span with
              attrs := span.attrs ++ [("http.status_code", n)],
              status := some (mapping n, "") }

/-- Python-dict insertion: `headers[key] += "," + value` when the key is
present (order preserved), `headers[key] = value` otherwise (appended). -/
def dictJoinAdd : List (String × String) → String → String → List (String × String)
  | [], key, value => [(key, value)]
  | (k, v) :: rest, key, value =>
    if k == key then (k, v ++ "," ++ value) :: rest
    else (k, v) :: dictJoinAdd rest key value

/-- The decode/join pass of `collect_custom_headers_attributes`
(lines 349-359): lower-case each decoded name, comma-join repeated names.
The second component counts the header pairs decoded, to make the amount
of decoding work the pass performs observable. -/
def decodeJoinPass (raw : List (String × String)) : List (String × String) × Nat :=
  raw.foldl (fun acc p => (dictJoinAdd acc.1 (pyLower p.1) p.2, acc.2 + 1)) ([], 0)

/-- Modelled from the spec: `SanitizeValue` (from `opentelemetry.util.http`,
not part of this repository) holds the configured sanitize-field name
matchers; a matcher is modelled as a predicate on the header name. -/
structure SanitizeValue where
  sanitizeMatchers : List (String → Bool)

/-- Modelled from the spec: `SanitizeValue.sanitize_header_values` (external
collaborator) keeps only headers whose name matches one of `regexes`,
redacts values whose name matches a sanitize matcher, and renames keys via
`normalize`. -/
def SanitizeValue.sanitize_header_values (sv : SanitizeValue)
    (headers : List (String × String)) (regexes : List (String → Bool))
    (normalize : String → String) : List (String × String) :=
  (headers.filter (fun p => regexes.any (fun r => r p.1))).map
    (fun p => (normalize p.1, if sv.sanitizeMatchers.any (fun r => r p.1) then "[REDACTED]" else p.2))

/-- `collect_custom_headers_attributes(scope_or_response_message, sanitize,
header_regexes, normalize_names)` (lines 337-365): the decode/join pass
runs unconditionally, then the sanitizer is applied. -/
def collect_custom_headers_attributes (raw_headers : List (String × String))
    (sanitize : SanitizeValue) (header_regexes : List (String → Bool))
    (normalize_names : String → String) : List (String × String) :=
  sanitize.sanitize_header_values (decodeJoinPass raw_headers).1 header_regexes normalize_names

/-- The number of header pairs `collect_custom_headers_attributes` decodes,
independent of `header_regexes`: the decode/join pass it is built from
processes every raw header. -/
def collectDecodeOps (raw_headers : List (String × String)) : Nat :=
  (decodeJoinPass raw_headers).2

/-- The call-site guard around the collector in `__call__` (lines 605-617)
and in `otel_send` (lines 717-726): the collector is invoked only when the
configured pattern list is truthy (non-empty); otherwise `{}` is used and
no decoding happens.  Returns the attributes and the decode-op count. -/
def callSiteCustomAttrs (cfgPatterns : List (String → Bool))
    (sanitize : SanitizeValue) (raw_headers : List (String × String))
    (normalize_names : String → String) : List (String × String) × Nat :=
  if !cfgPatterns.isEmpty then
    (collect_custom_headers_attributes raw_headers sanitize cfgPatterns normalize_names,
     collectDecodeOps raw_headers)
  else ([], 0)

/-- Modelled from the spec: `normalise_request_header_name` (from
`opentelemetry.util.http`, external): lower-case, `-` to `_`, prefixed
with the request-header attribute namespace. -/
def normalise_request_header_name (k : String) : String :=
  "http.request.header." ++ String.mk ((pyLower k).data.map (fun c => if c == '-' then '_' else c))

/-- Per-request state threaded through the `otel_send` wrapper (plus the
middleware-instance field `self.content_length_header`, which the source
stores on the shared instance; see `clStep` and the shared-state model
below). -/
structure SendCtx where
  expectingTrailers : Bool
  serverEndCalls : Nat
  contentLengthHeader : Option Int
  statusCode : Option Int
deriving Repr, DecidableEq

/-- The initial send-wrapper state for one request.  `icl` is the value of
`self.content_length_header` when the request starts (set once to `None`
in `__init__`, line 528, but never reset between requests). -/
def initSendCtx (icl : Option Int) : SendCtx :=
  { expectingTrailers := false
    serverEndCalls := 0
    contentLengthHeader := icl
    statusCode := none }

/-- The `expecting_trailers` update performed while processing one message
(lines 698-707): assigned from `message.get("trailers", False)` only for
an `http.response.start` message and only when the send child span is
recording. -/
def updateExpecting (sendRecording : Bool) (e : Bool) (m : Message) : Bool :=
  if sendRecording && m.type == "http.response.start" then m.trailers else e

/-- The termination condition checked after `await send(message)`
(lines 751-759): final body chunk with no trailers expected, or final
trailers chunk with trailers expected. -/
def terminates (e : Bool) (m : Message) : Bool :=
  (!e && m.type == "http.response.body" && !m.more_body) ||
  (e && m.type == "http.response.trailers" && !m.more_trailers)

/-- The `self.content_length_header` update performed for every sent
message (lines 742-747): latest parseable `content-length` value wins,
unparseable values are ignored. -/
def clStep (st : Option Int) (m : Message) : Option Int :=
  match asgiGet m.headers "content-length" with
  | [] => st
  | v :: _ =>
    match pyIntOfString v with
    | some n => some n
    | none => st

/-- One invocation of the `otel_send` wrapper (lines 691-760) on one
message, as a transition of the per-request state.  Span-attribute and
hook bookkeeping that has no effect on the claims' observables is not
tracked; `serverEndCalls` counts the `server_span.end()` calls made by the
termination branch. -/
def otelSendStep (sendRecording : Bool) (c : SendCtx) (m : Message) : SendCtx :=
  let e := updateExpecting sendRecording c.expectingTrailers m
  { expectingTrailers := e
    statusCode :=
      if sendRecording && m.type == "http.response.start" then some m.status
      else c.statusCode
    contentLengthHeader := clStep c.contentLengthHeader m
    serverEndCalls := c.serverEndCalls + (if terminates e m then 1 else 0) }

/-- The send wrapper applied to a whole stream of outgoing messages. -/
def runSend (sendRecording : Bool) (c : SendCtx) (msgs : List Message) : SendCtx :=
  msgs.foldl (otelSendStep sendRecording) c

/-- The value of the `expecting_trailers` flag after a list of messages has
gone through the wrapper, starting from `False`. -/
def expectingAfter (sendRecording : Bool) (msgs : List Message) : Bool :=
  msgs.foldl (updateExpecting sendRecording) false

/-- Whether a message is an `http.response.start` event. -/
def isStart (m : Message) : Bool :=
  m.type == "http.response.start"

/-- Spec-side characterisation of "trailers are expected": the trailers
flag carried by the most recent `http.response.start` message, `false`
when none occurred. -/
def lastStartTrailers : List Message → Bool
  | [] => false
  | m :: rest =>
    if rest.any isStart then lastStartTrailers rest
    else if isStart m then m.trailers
    else false

/-- Middleware-instance configuration relevant to the claims:
`self.excluded_urls`; `none` models the Python `None` default (the source
tests `if self.excluded_urls and self.excluded_urls.url_disabled(url)`). -/
structure MwConfig where
  excludedUrls : Option (String → Bool) := none

/-- The combined exclusion test of `__call__` (line 577). -/
def MwConfig.urlDisabled (cfg : MwConfig) (url : String) : Bool :=
  match cfg.excludedUrls with
  | some p => p url
  | none => false

/-- Environment inputs to one `__call__` invocation that come from external
collaborators: the recording status of the span returned by
`_start_internal_or_server_span` and of the child send spans, whether a
context token was returned, the two `default_timer()` readings, and the
value `self.content_length_header` holds when the request starts. -/
structure CallEnv where
  spanRecording : Bool
  sendSpanRecording : Bool
  token : Bool
  startTime : ℚ
  stopTime : ℚ
  initContentLength : Option Int := none

/-- The inner ASGI application's behaviour for one request: the messages it
passes to the (possibly wrapped) `send` callable, in order, and the
exception it raises after sending them (`none` = returns normally). -/
structure Handler where
  msgs : List Message := []
  err : Option String := none

/-- The inner application's own outcome, which `__call__` must propagate. -/
def Handler.outcome (h : Handler) : Except String Unit :=
  match h.err with
  | some e => .error e
  | none => .ok ()

/-- Observable effects of one `__call__` invocation: counts of span
creations and `server_span.end()` calls, metric-instrument operations,
context-token operations, and how the inner app was invoked. -/
structure Effects where
  serverSpansCreated : Nat := 0
  sendSpansCreated : Nat := 0
  activeInc : Nat := 0
  activeDec : Nat := 0
  durationRecords : List Int := []
  responseSizeRecords : List Int := []
  requestSizeRecords : List Int := []
  tokensAcquired : Nat := 0
  detaches : Nat := 0
  serverEndCalls : Nat := 0
  appCalls : Nat := 0
  usedWrappedSend : Bool := false
deriving Repr, DecidableEq

/-- `OpenTelemetryMiddleware.__call__` (lines 559-662) as a function from
the request inputs to the observable effects and the propagated outcome.

Faithful structure: unsupported scope types and excluded URLs bypass
everything (lines 573-578); otherwise the span is started, the
active-request counter incremented for `http` scopes, the inner app run
with the wrapped callables, and the `finally` block records the metrics
(only for `http` scopes), detaches the token, and ends the span iff it is
still recording (`spanRecording` and no `server_span.end()` call was made
by the send wrapper).  Exceptions from the handler reach the caller
unchanged after the `finally` block.  Attribute/hook bookkeeping with no
claim-observable effect is not tracked. -/
def middlewareCall (cfg : MwConfig) (env : CallEnv) (scope : Scope)
    (h : Handler) : Effects × Except String Unit :=
  if scope.type ≠ "http" ∧ scope.type ≠ "websocket" then
    ({ appCalls := 1 }, h.outcome)
  else
    let url := (get_host_port_url_tuple scope).2.2
    if cfg.urlDisabled url then
      ({ appCalls := 1 }, h.outcome)
    else
      let ctx := runSend env.sendSpanRecording (initSendCtx env.initContentLength) h.msgs
      let isHttp := scope.type == "http"
      let duration : Int := max (pyRound ((env.stopTime - env.startTime) * 1000)) 0
      let requestSizeRecs : List Int :=
        if isHttp then
          match asgiGet scope.headers "content-length" with
          | [] => []
          | v :: _ =>
            match pyIntOfString v with
            | some n => [n]
            | none => []
        else []
      let responseSizeRecs : List Int :=
        if isHttp then
          match ctx.contentLengthHeader with
          | some n => if n ≠ 0 then [n] else []
          | none => []
        else []
      ({ serverSpansCreated := 1
         sendSpansCreated := h.msgs.length
         activeInc := if isHttp then 1 else 0
         activeDec := if isHttp then 1 else 0
         durationRecords := if isHttp then [duration] else []
         responseSizeRecords := responseSizeRecs
         requestSizeRecords := requestSizeRecs
         tokensAcquired := if env.token then 1 else 0
         detaches := if env.token then 1 else 0
         serverEndCalls :=
           ctx.serverEndCalls +
             (if env.spanRecording && ctx.serverEndCalls == 0 then 1 else 0)
         appCalls := 1
         usedWrappedSend := true }, h.outcome)

/-- A request identifier for the two-requests interleaving model. -/
inductive ReqTag where
  | A
  | B
deriving Repr, DecidableEq

/-- One scheduler step in an interleaving of two concurrent requests
through one middleware instance: either one request's `otel_send` call
processes a message (which writes `self.content_length_header`, lines
742-747), or one request's `finally` block runs its response-size record
(lines 645-648). -/
inductive MwEvent where
  | sendMsg (r : ReqTag) (m : Message)
  | finishHttp (r : ReqTag)
deriving Repr

/-- Runs an interleaved schedule against the shared
`self.content_length_header` field, returning every response-size
histogram record as `(request, value)`.  The field is written by both
requests' send wrappers and read by both requests' cleanup paths; it is
never reset. -/
def runShared : List MwEvent → Option Int → List (ReqTag × Int)
  | [], _ => []
  | .sendMsg _ m :: rest, st => runShared rest (clStep st m)
  | .finishHttp r :: rest, st =>
    (match st with
     | some n => if n ≠ 0 then [(r, n)] else []
     | none => []) ++ runShared rest st

/-! Concrete test vectors used to instantiate the theorems below. -/

/-- A call environment with recording spans, a token, and a half-second
elapsed wall-clock time. -/
def exEnv : CallEnv :=
  { spanRecording := true
    sendSpanRecording := true
    token := true
    startTime := 0
    stopTime := 1/2 }

/-- An `http.response.start` message announcing trailers. -/
def exStartTrailers : Message :=
  { type := "http.response.start", status := 200, trailers := true }

/-- A plain `http.response.start` message. -/
def exStartPlain : Message :=
  { type := "http.response.start", status := 200 }

/-- A final body chunk (`more_body` unset). -/
def exBodyFinal : Message :=
  { type := "http.response.body" }

/-- A final trailers chunk (`more_trailers` unset). -/
def exTrailersFinal : Message :=
  { type := "http.response.trailers" }

/-- A start message carrying `content-length: 7`. -/
def exMsgCL7 : Message :=
  { type := "http.response.start", status := 200, headers := [("content-length", "7")] }

/-- An `http`-scope request. -/
def exScopeHttp : Scope :=
  { type := "http", path := some "/a" }

/-- A `websocket`-scope request. -/
def exScopeWs : Scope :=
  { type := "websocket", path := some "/ws" }

/-- A scope whose type is neither `http` nor `websocket`. -/
def exScopeLifespan : Scope :=
  { type := "lifespan" }

/-- A handler that sends a start message and a final body, then returns. -/
def exHandlerOk : Handler :=
  { msgs := [exStartPlain, exBodyFinal] }

/-- A handler that raises before sending anything. -/
def exHandlerBoom : Handler :=
  { msgs := [], err := some "boom" }

/-! Helper lemmas about the send-wrapper state machine. -/

/-- The `expecting_trailers` component of `runSend` is the fold of the
per-message flag update. -/
theorem runSend_expecting (rec : Bool) (c : SendCtx) (msgs : List Message) :
    (runSend rec c msgs).expectingTrailers =
      msgs.foldl (updateExpecting rec) c.expectingTrailers := by
  induction msgs generalizing c with
  | nil => rfl
  | cons m rest ih =>
    show (runSend rec (otelSendStep rec c m) rest).expectingTrailers = _
    rw [ih]
    rfl

/-- Appending one message to the stream performs exactly one more step. -/
theorem runSend_append (rec : Bool) (c : SendCtx) (msgs : List Message) (m : Message) :
    runSend rec c (msgs ++ [m]) = otelSendStep rec (runSend rec c msgs) m := by
  simp [runSend, List.foldl_append]

/-- Folding the recording-span flag update from any seed: the result is the
most recent start message's trailers flag when a start occurred, the seed
otherwise. -/
theorem foldl_updateExpecting_true (msgs : List Message) (e : Bool) :
    msgs.foldl (updateExpecting true) e =
      if msgs.any isStart then lastStartTrailers msgs else e := by
  induction msgs generalizing e with
  | nil => rfl
  | cons m rest ih =>
    rw [List.foldl_cons, ih]
    by_cases hm : isStart m
    · have hm' : (m.type == "http.response.start") = true := hm
      by_cases hr : rest.any isStart
      · simp [lastStartTrailers, hm, hr, List.any_cons]
      · simp [lastStartTrailers, hm, hr, List.any_cons, updateExpecting, hm']
    · have hm' : (m.type == "http.response.start") = false := by
        simpa [isStart] using hm
      by_cases hr : rest.any isStart
      · simp [lastStartTrailers, hm, hr, List.any_cons, updateExpecting, hm']
      · simp [lastStartTrailers, hm, hr, List.any_cons, updateExpecting, hm']

/-- Streams with no start message have no trailers announcement. -/
theorem lastStartTrailers_of_no_start (msgs : List Message)
    (h : msgs.any isStart = false) : lastStartTrailers msgs = false := by
  induction msgs with
  | nil => rfl
  | cons m rest ih =>
    rw [List.any_cons] at h
    rcases Bool.or_eq_false_iff.mp h with ⟨h1, h2⟩
    simp [lastStartTrailers, h1, h2]

/-- With recording send spans, the wrapper's `expecting_trailers` flag
equals the spec-side characterisation: the flag of the most recent
`http.response.start` message. -/
theorem expectingAfter_true (msgs : List Message) :
    expectingAfter true msgs = lastStartTrailers msgs := by
  rw [expectingAfter, foldl_updateExpecting_true]
  by_cases h : msgs.any isStart
  · simp [h]
  · simp [h, lastStartTrailers_of_no_start msgs (by simpa using h)]

/-- With non-recording send spans the flag update never fires. -/
theorem foldl_updateExpecting_false (msgs : List Message) (e : Bool) :
    msgs.foldl (updateExpecting false) e = e := by
  induction msgs generalizing e with
  | nil => rfl
  | cons m rest ih =>
    rw [List.foldl_cons]
    simpa [updateExpecting] using ih e

/-- `pyRound` lands within one half of its argument: it rounds to a nearest
integer. -/
theorem pyRound_near (q : ℚ) : |((pyRound q : ℤ) : ℚ) - q| ≤ 1/2 := by
  have h1 : (⌊q⌋ : ℚ) ≤ q := Int.floor_le q
  have h2 : q < (⌊q⌋ : ℚ) + 1 := Int.lt_floor_add_one q
  unfold pyRound
  split_ifs with ha hb hc
  · rw [abs_le]
    constructor <;> linarith
  · rw [abs_le]
    constructor <;> push_cast <;> linarith
  · rw [abs_le]
    constructor <;> linarith
  · rw [abs_le]
    constructor <;> push_cast <;> linarith

/-- `pyRound` of a non-negative rational is non-negative. -/
theorem pyRound_nonneg (q : ℚ) (h : 0 ≤ q) : 0 ≤ pyRound q := by
  have hf : 0 ≤ ⌊q⌋ := Int.floor_nonneg.mpr h
  unfold pyRound
  split_ifs <;> omega

/-!  Claim theorems. -/

/-- C1: after the real send completes, the send wrapper ends the server
span if and only if either (a) trailers are not expected — no earlier
`http.response.start` announced them — and the message is a body chunk
with no `more_body` flag, or (b) trailers are expected and the message is
a trailers chunk with no `more_trailers` flag; in particular with trailers
expected, a final body chunk does not end the server span.  Stated as: the
`server_span.end()` call count of the wrapper increases across one more
message exactly under that condition (send child spans recording). -/
theorem C1_send_termination_decision (pre : List Message) (m : Message)
    (c0 : SendCtx) (h : c0.expectingTrailers = false) :
    (runSend true c0 (pre ++ [m])).serverEndCalls =
      (runSend true c0 pre).serverEndCalls +
      (if (!lastStartTrailers (pre ++ [m]) && (m.type == "http.response.body")
            && !m.more_body)
          || (lastStartTrailers (pre ++ [m]) && (m.type == "http.response.trailers")
            && !m.more_trailers)
        then 1 else 0) := by
  rw [runSend_append]
  have hexp : (runSend true c0 pre).expectingTrailers = lastStartTrailers pre := by
    rw [runSend_expecting, h, ← expectingAfter_true]
    rfl
  have hupd : updateExpecting true (lastStartTrailers pre) m
      = lastStartTrailers (pre ++ [m]) := by
    have h1 : expectingAfter true (pre ++ [m])
        = updateExpecting true (expectingAfter true pre) m := by
      rw [expectingAfter, List.foldl_append]
      rfl
    rw [← expectingAfter_true pre, ← h1, expectingAfter_true]
  simp [otelSendStep, hexp, hupd, terminates]

/-- C1 witness: instantiated at the claim's streaming-trailers scenario
(`http.response.start` with `trailers=true`, then the final body, then the
final trailers): the final body does not end the server span, the final
trailers chunk does. -/
theorem C1_send_termination_decision_witness :
    (initSendCtx none).expectingTrailers = false ∧
    ((runSend true (initSendCtx none) ([exStartTrailers] ++ [exBodyFinal])).serverEndCalls =
      (runSend true (initSendCtx none) [exStartTrailers]).serverEndCalls +
      (if (!lastStartTrailers ([exStartTrailers] ++ [exBodyFinal])
            && (exBodyFinal.type == "http.response.body") && !exBodyFinal.more_body)
          || (lastStartTrailers ([exStartTrailers] ++ [exBodyFinal])
            && (exBodyFinal.type == "http.response.trailers") && !exBodyFinal.more_trailers)
        then 1 else 0)) ∧
    (runSend true (initSendCtx none) [exStartTrailers, exBodyFinal]).serverEndCalls = 0 ∧
    (runSend true (initSendCtx none) [exStartTrailers, exBodyFinal, exTrailersFinal]).serverEndCalls = 1 :=
  ⟨rfl, C1_send_termination_decision [exStartTrailers] exBodyFinal (initSendCtx none) rfl,
    by decide, by decide⟩

/-- C10: when the send child spans are not recording, the
`expecting_trailers` assignment (guarded by `send_span.is_recording()`)
never fires, so the flag stays false and the wrapper ends the server span
exactly after a body chunk with no `more_body` flag — even when an
`http.response.start` message announced trailers. -/
theorem C10_nonrecording_trailers_flag (pre : List Message) (m : Message)
    (c0 : SendCtx) (h : c0.expectingTrailers = false) :
    (runSend false c0 (pre ++ [m])).serverEndCalls =
      (runSend false c0 pre).serverEndCalls +
      (if (m.type == "http.response.body") && !m.more_body then 1 else 0) ∧
    (runSend false c0 (pre ++ [m])).expectingTrailers = false := by
  constructor
  · rw [runSend_append]
    have hexp : (runSend false c0 pre).expectingTrailers = false := by
      rw [runSend_expecting, h, foldl_updateExpecting_false]
    simp [otelSendStep, hexp, terminates, updateExpecting]
  · rw [runSend_expecting, h, foldl_updateExpecting_false]

/-- C10 witness: with non-recording send spans, a start message announcing
trailers does not stop the final body chunk from ending the server span. -/
theorem C10_nonrecording_trailers_flag_witness :
    (initSendCtx none).expectingTrailers = false ∧
    ((runSend false (initSendCtx none) ([exStartTrailers] ++ [exBodyFinal])).serverEndCalls =
      (runSend false (initSendCtx none) [exStartTrailers]).serverEndCalls +
      (if (exBodyFinal.type == "http.response.body") && !exBodyFinal.more_body then 1 else 0) ∧
    (runSend false (initSendCtx none) ([exStartTrailers] ++ [exBodyFinal])).expectingTrailers = false) ∧
    (runSend false (initSendCtx none) [exStartTrailers, exBodyFinal]).serverEndCalls = 1 :=
  ⟨rfl, C10_nonrecording_trailers_flag [exStartTrailers] exBodyFinal (initSendCtx none) rfl,
    by decide⟩

/-- C2: for an `http`-scope, non-excluded request with a recording server
span and an ASGI-conformant message stream (the wrapper's termination
branch fires at most once — after the terminal frame no further messages
are sent), exactly one server span is created and `server_span.end()` is
called exactly once: by the send wrapper's termination branch, or
otherwise by the cleanup path, whose `span.is_recording()` guard is false
exactly when the wrapper already ended the span. -/
theorem C2_span_created_and_ended_once (cfg : MwConfig) (env : CallEnv)
    (scope : Scope) (hdl : Handler)
    (hT : scope.type = "http")
    (hX : cfg.urlDisabled (get_host_port_url_tuple scope).2.2 = false)
    (hR : env.spanRecording = true)
    (hWF : (runSend env.sendSpanRecording (initSendCtx env.initContentLength)
              hdl.msgs).serverEndCalls ≤ 1) :
    (middlewareCall cfg env scope hdl).1.serverSpansCreated = 1 ∧
    (middlewareCall cfg env scope hdl).1.serverEndCalls = 1 := by
  have hcond : ¬(scope.type ≠ "http" ∧ scope.type ≠ "websocket") := by
    simp [hT]
  rcases Nat.le_one_iff_eq_zero_or_eq_one.mp hWF with hk | hk <;>
    simp [middlewareCall, hcond, hX, hR, hk]

/-- C2 witness: a plain 200 response with a single final body chunk. -/
theorem C2_span_created_and_ended_once_witness :
    exScopeHttp.type = "http" ∧
    MwConfig.urlDisabled {} (get_host_port_url_tuple exScopeHttp).2.2 = false ∧
    exEnv.spanRecording = true ∧
    (runSend exEnv.sendSpanRecording (initSendCtx exEnv.initContentLength)
        exHandlerOk.msgs).serverEndCalls ≤ 1 ∧
    ((middlewareCall {} exEnv exScopeHttp exHandlerOk).1.serverSpansCreated = 1 ∧
     (middlewareCall {} exEnv exScopeHttp exHandlerOk).1.serverEndCalls = 1) :=
  ⟨rfl, rfl, rfl, by decide,
    C2_span_created_and_ended_once {} exEnv exScopeHttp exHandlerOk rfl rfl rfl (by decide)⟩

/-- C3: when the inner handler raises on an `http`-scope, non-excluded
request, the `finally` cleanup still runs — the duration histogram gets
exactly one record, the active-request counter is decremented exactly
once, the context token (when acquired) is detached — and the exception
then propagates to the caller unchanged. -/
theorem C3_exception_cleanup (cfg : MwConfig) (env : CallEnv) (scope : Scope)
    (hdl : Handler) (e : String)
    (hT : scope.type = "http")
    (hX : cfg.urlDisabled (get_host_port_url_tuple scope).2.2 = false)
    (hE : hdl.err = some e) :
    (middlewareCall cfg env scope hdl).2 = .error e ∧
    (middlewareCall cfg env scope hdl).1.durationRecords.length = 1 ∧
    (middlewareCall cfg env scope hdl).1.activeDec = 1 ∧
    (env.token = true → (middlewareCall cfg env scope hdl).1.detaches = 1) := by
  have hcond : ¬(scope.type ≠ "http" ∧ scope.type ≠ "websocket") := by
    simp [hT]
  refine ⟨?_, ?_, ?_, ?_⟩ <;>
    simp [middlewareCall, hcond, hX, hT, Handler.outcome, hE]

/-- C3 witness: a handler raising `"boom"` before sending anything. -/
theorem C3_exception_cleanup_witness :
    exHandlerBoom.err = some "boom" ∧
    ((middlewareCall {} exEnv exScopeHttp exHandlerBoom).2 = .error "boom" ∧
     (middlewareCall {} exEnv exScopeHttp exHandlerBoom).1.durationRecords.length = 1 ∧
     (middlewareCall {} exEnv exScopeHttp exHandlerBoom).1.activeDec = 1 ∧
     (exEnv.token = true → (middlewareCall {} exEnv exScopeHttp exHandlerBoom).1.detaches = 1)) :=
  ⟨rfl, C3_exception_cleanup {} exEnv exScopeHttp exHandlerBoom "boom" rfl rfl rfl⟩

/-- C4: a scope whose type is neither `http` nor `websocket` — and likewise
a request whose derived URL is excluded — bypasses all telemetry: no
span, no metric-instrument operation, no token acquisition or detach, and
the inner app is invoked once with the original (unwrapped) callables,
its outcome passed through. -/
theorem C4_unsupported_scope_bypass (cfg : MwConfig) (env : CallEnv)
    (scope : Scope) (hdl : Handler)
    (hBy : (scope.type ≠ "http" ∧ scope.type ≠ "websocket") ∨
           cfg.urlDisabled (get_host_port_url_tuple scope).2.2 = true) :
    (middlewareCall cfg env scope hdl).1.serverSpansCreated = 0 ∧
    (middlewareCall cfg env scope hdl).1.sendSpansCreated = 0 ∧
    (middlewareCall cfg env scope hdl).1.activeInc = 0 ∧
    (middlewareCall cfg env scope hdl).1.activeDec = 0 ∧
    (middlewareCall cfg env scope hdl).1.durationRecords = [] ∧
    (middlewareCall cfg env scope hdl).1.responseSizeRecords = [] ∧
    (middlewareCall cfg env scope hdl).1.requestSizeRecords = [] ∧
    (middlewareCall cfg env scope hdl).1.tokensAcquired = 0 ∧
    (middlewareCall cfg env scope hdl).1.detaches = 0 ∧
    (middlewareCall cfg env scope hdl).1.serverEndCalls = 0 ∧
    (middlewareCall cfg env scope hdl).1.appCalls = 1 ∧
    (middlewareCall cfg env scope hdl).1.usedWrappedSend = false ∧
    (middlewareCall cfg env scope hdl).2 = hdl.outcome := by
  have hres : middlewareCall cfg env scope hdl = ({ appCalls := 1 }, hdl.outcome) := by
    rcases hBy with hT | hX
    · simp [middlewareCall, hT]
    · by_cases hT : scope.type ≠ "http" ∧ scope.type ≠ "websocket"
      · simp [middlewareCall, hT]
      · simp [middlewareCall, hT, hX]
  simp [hres]

/-- C4 witness: a `lifespan`-scope request with a successful handler. -/
theorem C4_unsupported_scope_bypass_witness :
    (exScopeLifespan.type ≠ "http" ∧ exScopeLifespan.type ≠ "websocket") ∧
    ((middlewareCall {} exEnv exScopeLifespan exHandlerOk).1.serverSpansCreated = 0 ∧
     (middlewareCall {} exEnv exScopeLifespan exHandlerOk).1.sendSpansCreated = 0 ∧
     (middlewareCall {} exEnv exScopeLifespan exHandlerOk).1.activeInc = 0 ∧
     (middlewareCall {} exEnv exScopeLifespan exHandlerOk).1.activeDec = 0 ∧
     (middlewareCall {} exEnv exScopeLifespan exHandlerOk).1.durationRecords = [] ∧
     (middlewareCall {} exEnv exScopeLifespan exHandlerOk).1.responseSizeRecords = [] ∧
     (middlewareCall {} exEnv exScopeLifespan exHandlerOk).1.requestSizeRecords = [] ∧
     (middlewareCall {} exEnv exScopeLifespan exHandlerOk).1.tokensAcquired = 0 ∧
     (middlewareCall {} exEnv exScopeLifespan exHandlerOk).1.detaches = 0 ∧
     (middlewareCall {} exEnv exScopeLifespan exHandlerOk).1.serverEndCalls = 0 ∧
     (middlewareCall {} exEnv exScopeLifespan exHandlerOk).1.appCalls = 1 ∧
     (middlewareCall {} exEnv exScopeLifespan exHandlerOk).1.usedWrappedSend = false ∧
     (middlewareCall {} exEnv exScopeLifespan exHandlerOk).2 = exHandlerOk.outcome) :=
  ⟨⟨by decide, by decide⟩,
    C4_unsupported_scope_bypass {} exEnv exScopeLifespan exHandlerOk
      (Or.inl ⟨by decide, by decide⟩)⟩

/-- C5: demonstrates the cross-request leak of
`self.content_length_header` (initialised once in `__init__` line 528,
written per message in `otel_send` lines 742-747, read in the cleanup
lines 645-648, never reset).  In the interleaving where request A sends a
start message with no `content-length`, request B then sends one with
`content-length: 7`, and A's cleanup runs, A's response-size histogram
records 7 — a value observed only on B's send stream (A's message carries
no `content-length` header at all).  The third conjunct shows the same
leak across sequential requests through `middlewareCall`: a fresh request
that sends nothing records a stale value left by a previous request. -/
theorem C5_shared_content_length_leak :
    runShared
        [.sendMsg .A exStartPlain,
         .sendMsg .B exMsgCL7,
         .finishHttp .A,
         .finishHttp .B] none = [(.A, 7), (.B, 7)] ∧
    asgiGet exStartPlain.headers "content-length" = [] ∧
    (middlewareCall {}
        { exEnv with initContentLength := some 7 }
        { type := "http" }
        { msgs := [], err := none }).1.responseSizeRecords = [7] := by
  refine ⟨by decide, by decide, by decide⟩

/-- C6: `set_status_code` is a no-op on a non-recording span; on a
recording span, a status value that `int()` rejects (with `ValueError`,
which the `try` block catches) sets an ERROR status carrying a descriptive
message and raises nothing; an `int()`-convertible value sets the numeric
`http.status_code` attribute and the status produced by the external
HTTP-to-trace-status mapping; in every case the function returns normally
(`.ok`). -/
theorem C6_set_status_code_behaviour (mapping : Int → OtelStatus)
    (span : SpanRec) (v : PyStatus) :
    (span.recording = false → set_status_code mapping span v = .ok span) ∧
    (span.recording = true →
      (∀ msg, pyIntOf v = .error msg →
        set_status_code mapping span v =
          .ok { span with
                  status := some (.error, "Non-integer HTTP status: " ++ pyRepr v) }) ∧
      (∀ n, pyIntOf v = .ok n →
        set_status_code mapping span v =
          .ok { span with
                  attrs := span.attrs ++ [("http.status_code", n)],
                  status := some (mapping n, "") })) ∧
    (∃ s, set_status_code mapping span v = .ok s) := by
  refine ⟨?_, ?_, ?_⟩
  · intro hrec
    simp [set_status_code, hrec]
  · intro hrec
    constructor
    · intro msg hmsg
      simp [set_status_code, hrec, hmsg]
    · intro n hn
      simp [set_status_code, hrec, hn]
  · by_cases hrec : span.recording
    · cases hv : pyIntOf v with
      | error msg =>
        exact ⟨{ span with
                   status := some (.error, "Non-integer HTTP status: " ++ pyRepr v) },
          by simp [set_status_code, hrec, hv]⟩
      | ok n =>
        exact ⟨{ span with
                   attrs := span.attrs ++ [("http.status_code", n)],
                   status := some (mapping n, "") },
          by simp [set_status_code, hrec, hv]⟩
    · exact ⟨span, by simp [set_status_code, hrec]⟩

/-- C6 witness: a recording span and the non-integer status `"oops"`: the
span is marked ERROR with the descriptive message and no exception
escapes. -/
theorem C6_set_status_code_behaviour_witness :
    ({ recording := true } : SpanRec).recording = true ∧
    pyIntOf (.str "oops") = .error "ValueError" ∧
    set_status_code (fun n => if 400 ≤ n then .error else .unset)
        { recording := true } (.str "oops") =
      .ok { recording := true,
            status := some (.error, "Non-integer HTTP status: 'oops'") } :=
  ⟨rfl, rfl,
    ((C6_set_status_code_behaviour (fun n => if 400 ≤ n then .error else .unset)
        { recording := true } (.str "oops")).2.1 rfl).1 "ValueError" rfl⟩

/-- C7 counterexample: the claim says every non-excluded `http` or
`websocket` request records exactly one duration value, but the whole
metrics block of the `finally` clause sits under
`if scope["type"] == "http"` (line 636), so a websocket request records
nothing into the duration histogram. -/
theorem C7_counterexample_websocket_no_duration :
    (middlewareCall {} exEnv exScopeWs exHandlerOk).1.durationRecords = [] ∧
    (middlewareCall {} exEnv exScopeWs exHandlerOk).1.durationRecords.length ≠ 1 := by
  refine ⟨by decide, by decide⟩

/-- C7 amended: only non-excluded requests with scope type `http` record a
duration — exactly one value, `max(round(elapsed_seconds*1000), 0)` with
Python's round-half-to-even — and have the active-request counter
incremented and decremented once; websocket requests record no duration
and never touch the counter.  The final conjunct states the claim's
"elapsed milliseconds rounded to the nearest integer, floored at zero"
reading: for non-negative elapsed time the recorded value is within one
half of the exact millisecond count. -/
theorem C7_duration_metrics (cfg : MwConfig) (env : CallEnv) (scope : Scope)
    (hdl : Handler)
    (hX : cfg.urlDisabled (get_host_port_url_tuple scope).2.2 = false) :
    (scope.type = "http" →
      (middlewareCall cfg env scope hdl).1.durationRecords =
        [max (pyRound ((env.stopTime - env.startTime) * 1000)) 0] ∧
      (middlewareCall cfg env scope hdl).1.activeInc = 1 ∧
      (middlewareCall cfg env scope hdl).1.activeDec = 1) ∧
    (scope.type = "websocket" →
      (middlewareCall cfg env scope hdl).1.durationRecords = [] ∧
      (middlewareCall cfg env scope hdl).1.activeInc = 0 ∧
      (middlewareCall cfg env scope hdl).1.activeDec = 0) ∧
    (∀ q : ℚ, 0 ≤ q → |((max (pyRound q) 0 : ℤ) : ℚ) - q| ≤ 1/2) := by
  refine ⟨?_, ?_, ?_⟩
  · intro hT
    have hcond : ¬(scope.type ≠ "http" ∧ scope.type ≠ "websocket") := by
      simp [hT]
    refine ⟨?_, ?_, ?_⟩ <;> simp [middlewareCall, hcond, hX, hT]
  · intro hT
    have hcond : ¬(scope.type ≠ "http" ∧ scope.type ≠ "websocket") := by
      simp [hT]
    refine ⟨?_, ?_, ?_⟩ <;> simp [middlewareCall, hcond, hX, hT]
  · intro q hq
    rw [max_eq_left (pyRound_nonneg q hq)]
    exact pyRound_near q

/-- C7 witness: half a second of wall-clock time on an `http` request
records the single duration value 500 ms. -/
theorem C7_duration_metrics_witness :
    MwConfig.urlDisabled {} (get_host_port_url_tuple exScopeHttp).2.2 = false ∧
    exScopeHttp.type = "http" ∧
    (middlewareCall {} exEnv exScopeHttp exHandlerOk).1.durationRecords = [500] ∧
    (middlewareCall {} exEnv exScopeHttp exHandlerOk).1.activeInc = 1 ∧
    (middlewareCall {} exEnv exScopeHttp exHandlerOk).1.activeDec = 1 := by
  obtain ⟨hd, hi, hdec⟩ :=
    (C7_duration_metrics {} exEnv exScopeHttp exHandlerOk rfl).1 rfl
  refine ⟨rfl, rfl, ?_, hi, hdec⟩
  rw [hd]
  have h500 : (exEnv.stopTime - exEnv.startTime) * 1000 = (500 : ℚ) := by
    norm_num [exEnv]
  rw [h500]
  have hr : pyRound 500 = 500 := by
    unfold pyRound
    norm_num
  rw [hr]
  norm_num

/-- The URL built by `get_host_port_url_tuple` is never empty: it always
contains the `://` separator. -/
theorem hostUrl_ne_empty (scope : Scope) :
    (get_host_port_url_tuple scope).2.2 ≠ "" := by
  unfold get_host_port_url_tuple
  intro h
  have hl := congrArg String.length h
  simp only [String.length_append] at hl
  rw [show ("://" : String).length = 3 from rfl] at hl
  simp at hl

/-- C8: the derived full URL is exactly the claim's formula —
`scheme://host[:port]` then root_path plus path, the `:port` suffix
omitted exactly when the port is 80, the percent-decoded query appended
after `?` only when both the URL and the query string are non-empty
(the URL in fact never is empty) — and on the claim's concrete scope it
yields `http://example.com/a?x=1`. -/
theorem C8_full_url_construction :
    (∀ (unquote : String → String) (scope : Scope),
      deriveFullUrl unquote scope = claimFullUrl unquote scope) ∧
    (∀ scope : Scope, (get_host_port_url_tuple scope).2.2 ≠ "") ∧
    deriveFullUrl pyUnquote
        { type := "http", scheme := some "http",
          server := some ("example.com", 80), path := some "/a",
          query_string := some "x=1" } = "http://example.com/a?x=1" := by
  refine ⟨?_, hostUrl_ne_empty, by decide⟩
  intro unquote scope
  have hbase : (get_host_port_url_tuple scope).2.2 =
      scope.scheme.getD "http" ++ "://"
        ++ (if (scope.server.getD ("0.0.0.0", 80)).2 = 80
            then (scope.server.getD ("0.0.0.0", 80)).1
            else (scope.server.getD ("0.0.0.0", 80)).1 ++ ":"
              ++ toString (scope.server.getD ("0.0.0.0", 80)).2)
        ++ scope.root_path.getD "" ++ scope.path.getD "" := by
    unfold get_host_port_url_tuple
    by_cases hp : (scope.server.getD ("0.0.0.0", 80)).2 = 80
    · simp [hp, String.append_empty, String.append_assoc]
    · simp [hp, String.append_assoc]
  unfold deriveFullUrl claimFullUrl
  rw [hbase]

/-- C8 witness: the general equality and the non-emptiness fact applied at
the claim's concrete scope. -/
theorem C8_full_url_construction_witness :
    deriveFullUrl pyUnquote
        { type := "http", scheme := some "http",
          server := some ("example.com", 80), path := some "/a",
          query_string := some "x=1" } =
      claimFullUrl pyUnquote
        { type := "http", scheme := some "http",
          server := some ("example.com", 80), path := some "/a",
          query_string := some "x=1" } ∧
    (get_host_port_url_tuple
        { type := "http", scheme := some "http",
          server := some ("example.com", 80), path := some "/a",
          query_string := some "x=1" }).2.2 ≠ "" :=
  ⟨C8_full_url_construction.1 pyUnquote _, C8_full_url_construction.2.1 _⟩

/-- C9 counterexample: with an empty allowed-pattern list the function
does return an empty map, but the claimed short-circuit does not exist
inside `collect_custom_headers_attributes`: on a carrier with one header
the decode/join pass still decodes it (one decode operation, not zero). -/
theorem C9_counterexample_decode_work :
    collect_custom_headers_attributes [("x-foo", "a")] ⟨[]⟩ [] (fun k => k) = [] ∧
    collectDecodeOps [("x-foo", "a")] = 1 ∧
    collectDecodeOps [("x-foo", "a")] ≠ 0 := by
  refine ⟨by decide, by decide, by decide⟩

/-- C9 amended: `collect_custom_headers_attributes` returns an empty map
whenever the allowed-pattern list is empty (the sanitizer filters every
header out), but it performs the decode/join pass unconditionally; the
short-circuit that avoids decoding work sits at the middleware call sites,
which invoke the collector only when the configured pattern list is
non-empty (`callSiteCustomAttrs [] … = ([], 0)` — no attribute, zero
decode operations).  With non-empty patterns, headers repeated under the
same lower-cased name are joined with `,` before sanitization, as on the
claim's concrete carrier. -/
theorem C9_empty_patterns_and_join :
    (∀ (raw : List (String × String)) (sv : SanitizeValue) (norm : String → String),
      collect_custom_headers_attributes raw sv [] norm = []) ∧
    (∀ (raw : List (String × String)) (sv : SanitizeValue) (norm : String → String),
      callSiteCustomAttrs [] sv raw norm = ([], 0)) ∧
    collect_custom_headers_attributes
        [("content-type", "text/plain"), ("x-foo", "a"), ("x-foo", "b")]
        ⟨[]⟩ [patternLead "x-"] normalise_request_header_name =
      [("http.request.header.x_foo", "a,b")] := by
  refine ⟨?_, ?_, by decide⟩
  · intro raw sv norm
    simp [collect_custom_headers_attributes, SanitizeValue.sanitize_header_values]
  · intro raw sv norm
    rfl

/-- C9 amended witness: the empty-pattern clauses applied at a concrete
one-header carrier. -/
theorem C9_empty_patterns_and_join_witness :
    collect_custom_headers_attributes [("x-foo", "a")] ⟨[]⟩ []
        normalise_request_header_name = [] ∧
    callSiteCustomAttrs [] ⟨[]⟩ [("x-foo", "a")]
        normalise_request_header_name = ([], 0) :=
  ⟨C9_empty_patterns_and_join.1 _ _ _, C9_empty_patterns_and_join.2.1 _ _ _⟩

end Asgi
